import Mathlib

/-!
Verification of the Hyena E-Bike BLE integration (coordinator, sensor and
setup modules) against its natural-language specification.

Bytes are modelled as natural numbers (with `b < 256` hypotheses where a
claim depends on byte range).  The telemetry store `self.data` of the
coordinator is a record with one optional slot per metric.  The pure parts
of the code (`_parse_packet` and the body of `_notification_handler`) are
embedded as total Lean functions; the stateful connection-lifecycle parts
are embedded as explicit state-passing functions over small state records.
-/

namespace Hyena

/-! ## Constants (src/const.py) -/

def PACKET_ID_BATTERY_SOC : Nat := 0x0A
def PACKET_ID_VOLTAGE : Nat := 0x01
def PACKET_ID_CURRENT_POWER : Nat := 0x06
def PACKET_ID_TEMPERATURE : Nat := 0x07
def PACKET_ID_SPEED_RPM : Nat := 0x05
def PACKET_ID_PEDAL_CADENCE : Nat := 0x08
def PACKET_ID_MOTOR_STATUS : Nat := 0x09

/-- FRAME_DELIMITER = bytes.fromhex("ee00000000000000") (src/const.py line 25). -/
def FRAME_DELIMITER : List Nat := [0xee, 0x00, 0x00, 0x00, 0x00, 0x00, 0x00, 0x00]

/-- DISCONNECT_DELAY = 120 (src/coordinator.py line 36). -/
def DISCONNECT_DELAY : Nat := 120

/-! ## Frame decoder (src/coordinator.py `_parse_packet`, lines 177-212) -/

/-- The dict built by `_parse_packet`: packet_id, raw_data, parsed_value. -/
structure PacketInfo where
  packet_id : Nat
  raw_data : List Nat
  parsed_value : Option Nat
deriving DecidableEq, Repr

/-- Embedding of `_parse_packet` (src/coordinator.py lines 177-212).
`len(data) < 2` yields None; byte 0 is the packet id, the rest the payload;
id 0x0A with payload length >= 1 yields payload[0]; id 0x07 with payload
length >= 2 yields the big-endian 16-bit value of payload[0:2]; every other
case yields None.  `struct.unpack(">H", ...)` on a 2-byte slice cannot raise
once the length guard holds, so the `except struct.error` path is dead and
the embedding is a total function. -/
def parse_packet (data : List Nat) : Option PacketInfo :=
  if data.length < 2 then none
  else
    let packet_id := data.headD 0
    let packet_data := data.tail
    if packet_id = PACKET_ID_BATTERY_SOC ∧ 1 ≤ packet_data.length then
      some ⟨packet_id, data, some (packet_data.headD 0)⟩
    else if packet_id = PACKET_ID_TEMPERATURE ∧ 2 ≤ packet_data.length then
      some ⟨packet_id, data, some (packet_data.headD 0 * 256 + packet_data.tail.headD 0)⟩
    else none

/-- The spec's DecodedReading variant (spec section 3): battery SOC as the raw
unsigned byte, battery temperature as the raw 16-bit value divided by 10. -/
inductive DecodedReading where
  | batterySoc (percent : Nat)
  | batteryTemperature (celsius : ℚ)
deriving DecidableEq, Repr

/-- The pure decode path of `_notification_handler` (src/coordinator.py lines
135-168) separated from the store write: the frame-delimiter check, the call
to `_parse_packet`, the `parsed_value is None` guard and the per-id
interpretation (temperature divided by 10.0). -/
def decode (data : List Nat) : Option DecodedReading :=
  if data = FRAME_DELIMITER then none
  else
    match parse_packet data with
    | none => none
    | some packet_info =>
      match packet_info.parsed_value with
      | none => none
      | some parsed_value =>
        if packet_info.packet_id = PACKET_ID_BATTERY_SOC then
          some (.batterySoc parsed_value)
        else if packet_info.packet_id = PACKET_ID_TEMPERATURE then
          some (.batteryTemperature ((parsed_value : ℚ) / 10))
        else none

/-! ## Telemetry store and notification handler
(src/coordinator.py `self.data` and `_notification_handler`, lines 60-175) -/

/-- The coordinator's `self.data` dict: one optional slot per metric,
both initialized to None (src/coordinator.py lines 61-64). -/
structure TelemetryData where
  battery : Option Nat
  temperature : Option ℚ
deriving DecidableEq, Repr

/-- Initial store: {battery: None, temperature: None}. -/
def initial_data : TelemetryData := ⟨none, none⟩

/-- The observable effects of one `_notification_handler` call: the store
afterwards, whether `async_set_updated_data` was called (Publisher
notified), and whether `_reset_disconnect_timer` was called. -/
structure HandlerResult where
  data : TelemetryData
  notified : Bool
  timer_reset : Bool
deriving DecidableEq, Repr

/-- Embedding of `_notification_handler` (src/coordinator.py lines 135-175).
Frame delimiters are ignored; a failed parse or a None parsed_value returns
early; id 0x0A stores the value in the battery slot and sets updated; id
0x07 stores value/10.0 in the temperature slot and sets updated; iff updated,
the Publisher is notified and the disconnect timer is reset. -/
def notification_handler (st : TelemetryData) (data : List Nat) : HandlerResult :=
  if data = FRAME_DELIMITER then ⟨st, false, false⟩
  else
    match parse_packet data with
    | none => ⟨st, false, false⟩
    | some packet_info =>
      match packet_info.parsed_value with
      | none => ⟨st, false, false⟩
      | some parsed_value =>
        if packet_info.packet_id = PACKET_ID_BATTERY_SOC then
          ⟨{ st with battery := some parsed_value }, true, true⟩
        else if packet_info.packet_id = PACKET_ID_TEMPERATURE then
          ⟨{ st with temperature := some ((parsed_value : ℚ) / 10) }, true, true⟩
        else ⟨st, false, false⟩

/-- Folding a whole sequence of incoming notifications over the store,
starting from the initial (all-None) store. -/
def run_notifications (msgs : List (List Nat)) : TelemetryData :=
  msgs.foldl (fun st m => (notification_handler st m).data) initial_data

/-! ## Sensor values (src/sensor.py `native_value`, lines 95-98 and 145-148) -/

/-- HyenaBatterySensor.native_value: `self.coordinator.data.get(SENSOR_BATTERY)`. -/
def battery_native_value (d : TelemetryData) : Option Nat := d.battery

/-- HyenaTemperatureSensor.native_value: `self.coordinator.data.get(SENSOR_TEMPERATURE)`. -/
def temperature_native_value (d : TelemetryData) : Option ℚ := d.temperature

/-! ## Helper lemmas about the decode path -/

/-- The spec's `apply` operation on the store (section 4.2): overwrite the
slot selected by the reading's variant, leave the other slot alone. -/
def apply_reading (st : TelemetryData) (r : DecodedReading) : TelemetryData :=
  match r with
  | .batterySoc v => { st with battery := some v }
  | .batteryTemperature c => { st with temperature := some c }

/-- A two-cons list never trips the `len(data) < 2` guard. -/
lemma length_guard_false (n : Nat) : ¬(n + 1 + 1 < 2) := by omega

/-- The notification handler is exactly: decode, then on a reading overwrite
the slot and report notified/timer_reset, else leave everything alone. -/
lemma notification_handler_eq (st : TelemetryData) (data : List Nat) :
    notification_handler st data =
      match decode data with
      | none => ⟨st, false, false⟩
      | some r => ⟨apply_reading st r, true, true⟩ := by
  unfold notification_handler decode
  by_cases hdelim : data = FRAME_DELIMITER
  · simp [hdelim]
  · simp only [hdelim, if_false]
    cases hp : parse_packet data with
    | none => rfl
    | some packet_info =>
      cases hv : packet_info.parsed_value with
      | none => simp [hv]
      | some parsed_value =>
        by_cases hb : packet_info.packet_id = PACKET_ID_BATTERY_SOC
        · simp [hv, hb, apply_reading, PACKET_ID_BATTERY_SOC, PACKET_ID_TEMPERATURE]
        · by_cases ht : packet_info.packet_id = PACKET_ID_TEMPERATURE
          · simp [hv, hb, ht, apply_reading, PACKET_ID_BATTERY_SOC, PACKET_ID_TEMPERATURE]
          · simp [hv, hb, ht]

/-- One handler call either leaves the battery slot untouched or stores some
byte of the incoming message there. -/
lemma handler_battery_mem (st : TelemetryData) (m : List Nat) :
    (notification_handler st m).data.battery = st.battery ∨
    ∃ v, v ∈ m ∧ (notification_handler st m).data.battery = some v := by
  match m with
  | [] => left; simp [notification_handler, parse_packet, FRAME_DELIMITER]
  | [a] => left; simp [notification_handler, parse_packet, FRAME_DELIMITER]
  | a :: b :: l =>
    by_cases hdelim : a :: b :: l = FRAME_DELIMITER
    · left; simp [notification_handler, hdelim]
    · by_cases ha : a = PACKET_ID_BATTERY_SOC
      · right
        refine ⟨b, by simp, ?_⟩
        simp [notification_handler, parse_packet, ha, length_guard_false,
          FRAME_DELIMITER, PACKET_ID_BATTERY_SOC, PACKET_ID_TEMPERATURE]
      · left
        by_cases hb : a = PACKET_ID_TEMPERATURE
        · match l with
          | [] => simp [notification_handler, parse_packet, hb, length_guard_false,
              FRAME_DELIMITER, PACKET_ID_BATTERY_SOC, PACKET_ID_TEMPERATURE]
          | c :: l' => simp [notification_handler, parse_packet, hb, length_guard_false,
              FRAME_DELIMITER, PACKET_ID_BATTERY_SOC, PACKET_ID_TEMPERATURE]
        · simp [notification_handler, parse_packet, hdelim, ha, hb, length_guard_false]

/-- Battery slot stays absent-or-a-byte along any fold of valid-byte messages. -/
lemma battery_le_255_fold (msgs : List (List Nat)) :
    ∀ st : TelemetryData,
      (st.battery = none ∨ ∃ v, st.battery = some v ∧ v ≤ 255) →
      (∀ m ∈ msgs, ∀ b ∈ m, b < 256) →
      ((msgs.foldl (fun st m => (notification_handler st m).data) st).battery = none ∨
       ∃ v, (msgs.foldl (fun st m => (notification_handler st m).data) st).battery = some v
            ∧ v ≤ 255) := by
  induction msgs with
  | nil => intro st h _; simpa using h
  | cons m ms ih =>
    intro st h hv
    simp only [List.foldl_cons]
    apply ih
    · rcases handler_battery_mem st m with heq | ⟨v, hvm, heq⟩
      · rw [heq]; exact h
      · right
        refine ⟨v, heq, ?_⟩
        have := hv m (by simp) v hvm
        omega
    · intro m' hm'
      exact hv m' (by simp [hm'])

/-! ## Claims about the decoder and the store -/

/-- C1 (counterexample): the stored battery value is already 80 and a
battery frame carrying the same value 80 arrives; the claim says the
Publisher is not notified and the idle timer is not reset, but the handler
notifies and resets the timer anyway (`updated` is set unconditionally in
the battery branch, src/coordinator.py lines 157-175). -/
theorem claim_C1_counterexample :
    decode [0x0A, 80] = some (.batterySoc 80) ∧
    (⟨some 80, none⟩ : TelemetryData).battery = some 80 ∧
    (notification_handler ⟨some 80, none⟩ [0x0A, 80]).data.battery = some 80 ∧
    (notification_handler ⟨some 80, none⟩ [0x0A, 80]).notified = true ∧
    (notification_handler ⟨some 80, none⟩ [0x0A, 80]).timer_reset = true := by
  decide

/-- C1 (amended): the notification-handling path notifies the Publisher and
resets the idle-disconnect timer exactly when the incoming frame decodes to
a reading — regardless of whether the stored value changed.  The handler
performs no change detection: `updated` is set whenever a battery or
temperature frame is applied (src/coordinator.py lines 155-175). -/
theorem claim_C1 (st : TelemetryData) (data : List Nat) :
    (notification_handler st data).notified = (decode data).isSome ∧
    (notification_handler st data).timer_reset = (decode data).isSome ∧
    (notification_handler st data).data
      = (match decode data with
         | none => st
         | some r => apply_reading st r) := by
  rw [notification_handler_eq]
  cases decode data <;> simp

/-- C2 (counterexample): the notification [0x0A, 0xFF] is decoded as a
battery reading of 255 and published as-is; neither the decoder nor the
handler nor the sensor clamps to 0-100, so the published battery metric is
255 > 100, contradicting the claim that it is always 0-100 or absent. -/
theorem claim_C2_counterexample :
    battery_native_value (run_notifications [[0x0A, 0xFF]]) = some 255 ∧
    ¬(255 ≤ 100) := by
  decide

/-- C2 (amended): for every sequence of incoming notifications whose entries
are bytes (each element < 256), the published battery metric is either
absent or an integer between 0 and 255 inclusive.  The raw payload byte is
stored without clamping to 0-100. -/
theorem claim_C2 (msgs : List (List Nat)) (h : ∀ m ∈ msgs, ∀ b ∈ m, b < 256) :
    battery_native_value (run_notifications msgs) = none ∨
    ∃ v, battery_native_value (run_notifications msgs) = some v ∧ v ≤ 255 := by
  have := battery_le_255_fold msgs initial_data (by left; rfl) h
  simpa [run_notifications, battery_native_value] using this

/-- C2 witness: a concrete byte-valid notification sequence, with the
hypothesis discharged by computation and the conclusion from claim_C2. -/
theorem claim_C2_witness :
    (∀ m ∈ [[0x0A, 0x2A]], ∀ b ∈ m, b < 256) ∧
    (battery_native_value (run_notifications [[0x0A, 0x2A]]) = none ∨
     ∃ v, battery_native_value (run_notifications [[0x0A, 0x2A]]) = some v ∧ v ≤ 255) :=
  ⟨by decide, claim_C2 [[0x0A, 0x2A]] (by decide)⟩

/-- C3: every frame tagged 0x0A with at least one payload byte decodes to
the battery SOC reading payload[0]; every frame tagged 0x07 with at least
two payload bytes decodes to the temperature reading (payload[0]*256 +
payload[1]) / 10 degrees Celsius; in particular [0x07, 0x00, 0xEB] decodes
to 23.5. -/
theorem claim_C3 :
    (∀ b rest, decode (0x0A :: b :: rest) = some (.batterySoc b)) ∧
    (∀ b0 b1 rest, decode (0x07 :: b0 :: b1 :: rest)
        = some (.batteryTemperature (((b0 * 256 + b1 : Nat) : ℚ) / 10))) ∧
    decode [0x07, 0x00, 0xEB] = some (.batteryTemperature 23.5) := by
  refine ⟨?_, ?_, ?_⟩
  · intro b rest
    simp [decode, parse_packet, length_guard_false,
      FRAME_DELIMITER, PACKET_ID_BATTERY_SOC, PACKET_ID_TEMPERATURE]
  · intro b0 b1 rest
    simp [decode, parse_packet, length_guard_false,
      FRAME_DELIMITER, PACKET_ID_BATTERY_SOC, PACKET_ID_TEMPERATURE]
  · norm_num [decode, parse_packet, FRAME_DELIMITER,
      PACKET_ID_BATTERY_SOC, PACKET_ID_TEMPERATURE]

/-- C4: decode is a total function (the embedding itself), and it produces
no reading exactly when the input is the 8-byte sentinel ee00000000000000,
is shorter than 2 bytes, carries a tag other than 0x0A / 0x07, or carries
tag 0x07 without 2 payload bytes (tag 0x0A always has its 1 payload byte
once the length-2 guard passed); any other input — in particular any other
8-byte value — yields a reading. -/
theorem claim_C4 (data : List Nat) :
    decode data = none ↔
      data = FRAME_DELIMITER ∨
      data.length < 2 ∨
      (data.headD 0 ≠ PACKET_ID_BATTERY_SOC ∧ data.headD 0 ≠ PACKET_ID_TEMPERATURE) ∨
      (data.headD 0 = PACKET_ID_TEMPERATURE ∧ data.length < 3) := by
  match data with
  | [] => simp [decode, parse_packet, FRAME_DELIMITER]
  | [a] => simp [decode, parse_packet, FRAME_DELIMITER]
  | a :: b :: l =>
    by_cases hdelim : a :: b :: l = FRAME_DELIMITER
    · simp [decode, hdelim]
    · by_cases ha : a = PACKET_ID_BATTERY_SOC
      · simp [decode, parse_packet, ha, length_guard_false,
          FRAME_DELIMITER, PACKET_ID_BATTERY_SOC, PACKET_ID_TEMPERATURE]
      · by_cases hb : a = PACKET_ID_TEMPERATURE
        · match l with
          | [] => simp [decode, parse_packet, hb, length_guard_false,
              FRAME_DELIMITER, PACKET_ID_BATTERY_SOC, PACKET_ID_TEMPERATURE]
          | c :: l' => simp [decode, parse_packet, hb, length_guard_false,
              FRAME_DELIMITER, PACKET_ID_BATTERY_SOC, PACKET_ID_TEMPERATURE]
        · simp [decode, parse_packet, hdelim, ha, hb, length_guard_false]

/-- C5: applying two battery frames in sequence leaves exactly the second
battery value and does not touch the temperature slot; applying two
temperature frames in sequence leaves exactly the second temperature value
and does not touch the battery slot.  Each write is a full replacement. -/
theorem claim_C5 (st : TelemetryData) (b1 b2 t1a t1b t2a t2b : Nat) :
    ((notification_handler
        (notification_handler st [0x0A, b1]).data [0x0A, b2]).data.battery = some b2 ∧
     (notification_handler
        (notification_handler st [0x0A, b1]).data [0x0A, b2]).data.temperature
       = st.temperature) ∧
    ((notification_handler
        (notification_handler st [0x07, t1a, t1b]).data [0x07, t2a, t2b]).data.temperature
       = some (((t2a * 256 + t2b : Nat) : ℚ) / 10) ∧
     (notification_handler
        (notification_handler st [0x07, t1a, t1b]).data [0x07, t2a, t2b]).data.battery
       = st.battery) := by
  refine ⟨⟨?_, ?_⟩, ⟨?_, ?_⟩⟩ <;>
    simp [notification_handler, parse_packet, length_guard_false,
      FRAME_DELIMITER, PACKET_ID_BATTERY_SOC, PACKET_ID_TEMPERATURE]

/-- C10: a battery SOC frame whose payload byte is 0x00 parses to
parsed_value = some 0 (not None), so the `parsed_value is None` guard does
not drop it: the zero is stored in the battery slot and the Publisher is
notified like any other value.  The handler distinguishes the absence of a
value from the value zero. -/
theorem claim_C10 (st : TelemetryData) (rest : List Nat) :
    parse_packet (0x0A :: 0 :: rest)
      = some ⟨0x0A, 0x0A :: 0 :: rest, some 0⟩ ∧
    (notification_handler st (0x0A :: 0 :: rest)).data.battery = some 0 ∧
    (notification_handler st (0x0A :: 0 :: rest)).notified = true := by
  refine ⟨?_, ?_, ?_⟩ <;>
    simp [notification_handler, parse_packet, length_guard_false,
      FRAME_DELIMITER, PACKET_ID_BATTERY_SOC, PACKET_ID_TEMPERATURE]

/-! ## Disconnection callback (src/coordinator.py `_disconnected_callback`,
lines 122-133) -/

/-- The observable effects of one `_disconnected_callback` invocation: the
value of `self._client` afterwards and how many reconnection tasks were
scheduled via `hass.async_create_task(self._async_update_data())`. -/
structure CallbackResult where
  client : Option Unit
  reconnects_scheduled : Nat
deriving DecidableEq, Repr

/-- Embedding of `_disconnected_callback` (src/coordinator.py lines
122-133): when `self._expected_disconnect` is set the callback returns at
once, leaving `self._client` as it was and scheduling nothing; otherwise it
sets `self._client = None` and schedules exactly one reconnection task. -/
def disconnected_callback (client : Option Unit) (expected_disconnect : Bool) :
    CallbackResult :=
  if expected_disconnect then
    ⟨client, 0⟩
  else
    ⟨none, 1⟩

/-! ## Idle-disconnect timer
(src/coordinator.py `_reset_disconnect_timer` / `_disconnect_after_delay` /
`_async_disconnect`, lines 214-250) -/

/-- Connection-manager state for the timer model: current time, whether the
link is up, the telemetry store, the deadline of the (single) pending
idle-disconnect task if any, and a count of graceful (expected) disconnects
performed so far.  Scheduling a new task through `_reset_disconnect_timer`
first cancels the pending one, so one optional deadline models the task. -/
structure MgrState where
  now : Nat
  connected : Bool
  store : TelemetryData
  timer_deadline : Option Nat
  expected_disconnects : Nat
deriving DecidableEq, Repr

/-- Embedding of `_reset_disconnect_timer` (src/coordinator.py lines
214-224): cancel any pending disconnect task and schedule a fresh one that
fires DISCONNECT_DELAY after the current instant. -/
def reset_disconnect_timer (s : MgrState) : MgrState :=
  { s with timer_deadline := some (s.now + DISCONNECT_DELAY) }

/-- The handler as it runs inside the manager (src/coordinator.py lines
135-175): apply the notification to the store and, iff it reported an
update, reset the idle-disconnect timer.  Delivery is instantaneous: `now`
does not advance. -/
def handle_notification (s : MgrState) (bytes : List Nat) : MgrState :=
  let r := notification_handler s.store bytes
  let s' := { s with store := r.data }
  if r.timer_reset then reset_disconnect_timer s' else s'

/-- Time advancing by dt with no intervening readings (src/coordinator.py
lines 226-250): if the pending task's deadline falls within the window it
fires and runs `_async_disconnect`, which disconnects gracefully when a
live client exists (the expected path: `_expected_disconnect` is set for
the duration of the teardown) and returns early otherwise. -/
def advance_time (s : MgrState) (dt : Nat) : MgrState :=
  let t := s.now + dt
  match s.timer_deadline with
  | some d =>
    if d ≤ t then
      if s.connected then
        { now := t, connected := false, store := s.store,
          timer_deadline := none, expected_disconnects := s.expected_disconnects + 1 }
      else
        { s with now := t, timer_deadline := none }
    else { s with now := t }
  | none => { s with now := t }

/-! ## Connect mutual exclusion (src/coordinator.py `_ensure_connection`,
lines 77-120, and the `asyncio.Lock` created at line 56) -/

/-- Program counter of one `_ensure_connection` caller:
ready = before `async with self._connection_lock`;
checking = lock held, about to test `self._client.is_connected`;
connecting = lock held, about to await `establish_connection` (the awaits
inside the critical section are the suspension points of the cooperative
scheduler); releasing = connect done, about to leave the `async with`;
finished = returned. -/
inductive CallerPC where
  | ready
  | checking
  | connecting
  | releasing
  | finished
deriving DecidableEq, Repr

/-- Two concurrent `_ensure_connection` callers sharing the coordinator:
who holds `self._connection_lock`, each caller's program counter, whether
`self._client` is a live connected client, and how many times
`establish_connection` has been invoked. -/
structure EnsureSysState where
  lock_owner : Option Bool
  pc0 : CallerPC
  pc1 : CallerPC
  connected : Bool
  connect_attempts : Nat
deriving DecidableEq, Repr

def pc_of (s : EnsureSysState) (i : Bool) : CallerPC :=
  if i then s.pc1 else s.pc0

def set_pc (s : EnsureSysState) (i : Bool) (p : CallerPC) : EnsureSysState :=
  if i then { s with pc1 := p } else { s with pc0 := p }

/-- One scheduler step of caller i through `_ensure_connection`
(src/coordinator.py lines 77-120), with the connect attempt succeeding:
acquire the lock when free (otherwise stay blocked); under the lock, return
at once if already connected; otherwise perform the single
`establish_connection` attempt; release the lock and return. -/
def ensure_step (s : EnsureSysState) (i : Bool) : EnsureSysState :=
  match pc_of s i with
  | .ready =>
      if s.lock_owner = none then set_pc { s with lock_owner := some i } i .checking
      else s
  | .checking =>
      if s.connected then set_pc { s with lock_owner := none } i .finished
      else set_pc s i .connecting
  | .connecting =>
      set_pc { s with connected := true, connect_attempts := s.connect_attempts + 1 }
        i .releasing
  | .releasing =>
      set_pc { s with lock_owner := none } i .finished
  | .finished => s

/-- Run an arbitrary interleaving (a schedule of caller choices) from the
disconnected initial state with both callers about to enter
`_ensure_connection`. -/
def ensure_run (sched : List Bool) : EnsureSysState :=
  sched.foldl ensure_step ⟨none, .ready, .ready, false, 0⟩

/-- Whether a program counter is inside the lock-protected critical section. -/
def in_cs (p : CallerPC) : Bool :=
  match p with
  | .checking => true
  | .connecting => true
  | .releasing => true
  | _ => false

/-- Inductive invariant of the two-caller system: the connect-attempt count
matches the link state, the lock owner is exactly the caller inside the
critical section, a caller at the connect step saw the link down, and a
caller at or past release saw the connect succeed. -/
def EnsureInv (s : EnsureSysState) : Prop :=
  (s.connect_attempts = if s.connected then 1 else 0) ∧
  (match s.lock_owner with
   | none => in_cs s.pc0 = false ∧ in_cs s.pc1 = false
   | some false => in_cs s.pc0 = true ∧ in_cs s.pc1 = false
   | some true => in_cs s.pc1 = true ∧ in_cs s.pc0 = false) ∧
  (s.pc0 = .connecting → s.connected = false) ∧
  (s.pc1 = .connecting → s.connected = false) ∧
  ((s.pc0 = .releasing ∨ s.pc0 = .finished) → s.connected = true) ∧
  ((s.pc1 = .releasing ∨ s.pc1 = .finished) → s.connected = true)

lemma ensure_step_inv (s : EnsureSysState) (i : Bool) (h : EnsureInv s) :
    EnsureInv (ensure_step s i) := by
  obtain ⟨lock_owner, pc0, pc1, connected, connect_attempts⟩ := s
  cases i <;> cases pc0 <;> cases pc1 <;> cases connected <;>
    rcases lock_owner with _ | (_ | _) <;>
    simp_all [EnsureInv, ensure_step, pc_of, set_pc, in_cs]

lemma ensure_run_inv (sched : List Bool) : EnsureInv (ensure_run sched) := by
  unfold ensure_run
  have h0 : EnsureInv ⟨none, .ready, .ready, false, 0⟩ := by
    simp [EnsureInv, in_cs]
  generalize hs : (⟨none, .ready, .ready, false, 0⟩ : EnsureSysState) = s0
  rw [hs] at h0
  clear hs
  induction sched generalizing s0 with
  | nil => simpa using h0
  | cons i rest ih =>
    simp only [List.foldl_cons]
    exact ih _ (ensure_step_inv s0 i h0)

/-! ## Setup entry point (src/__init__.py `async_setup_entry`, lines 19-47) -/

/-- The observable outcome of `async_setup_entry`: whether the
initial-refresh failure was logged, whether the coordinator was stored in
`hass.data[DOMAIN]`, whether the sensor platform setup was forwarded, and
the boolean the function returns. -/
structure SetupOutcome where
  warning_logged : Bool
  coordinator_registered : Bool
  platform_forwarded : Bool
  setup_ok : Bool
deriving DecidableEq, Repr

/-- Embedding of `async_setup_entry` (src/__init__.py lines 19-47).  The
first refresh runs inside `try ... except Exception`: any exception is
caught and only logged — `ConfigEntryNotReady` is deliberately not raised —
and the function goes on to register the coordinator, forward the sensor
platform and return True in every case. -/
def async_setup_entry (first_refresh : Except String Unit) : SetupOutcome :=
  let warning_logged :=
    match first_refresh with
    | .ok _ => false
    | .error _ => true
  { warning_logged := warning_logged,
    coordinator_registered := true,
    platform_forwarded := true,
    setup_ok := true }

/-! ## Claims about the connection lifecycle and setup -/

/-- C6 (counterexample): an expected (manager-initiated) disconnect with a
live client: the claim says the callback clears internal link state, but
`_disconnected_callback` returns before the `self._client = None` line when
`self._expected_disconnect` is set (src/coordinator.py lines 125-127), so
the client reference is left untouched. -/
theorem claim_C6_counterexample :
    (disconnected_callback (some ()) true).client = some () ∧
    (disconnected_callback (some ()) true).client ≠ none ∧
    (disconnected_callback (some ()) true).reconnects_scheduled = 0 := by
  decide

/-- C6 (amended): on an expected (manager-initiated) disconnect the
callback returns immediately, scheduling nothing and leaving the link state
exactly as it was (the disconnect routine itself clears it); on an
unexpected disconnect it clears the link state and schedules exactly one
asynchronous reconnection attempt. -/
theorem claim_C6 (client : Option Unit) :
    disconnected_callback client true = ⟨client, 0⟩ ∧
    disconnected_callback client false = ⟨none, 1⟩ := by
  constructor <;> rfl

/-- C7: while connected with a pending idle-disconnect deadline d, (a) time
reaching d with no new readings performs exactly one graceful (expected)
disconnect, and (b) any reading arriving meanwhile — any frame that decodes
to a reading, battery or temperature — cancels the pending task, rearms the
window to DISCONNECT_DELAY from the arrival instant, and the disconnect does
not fire before the new window elapses. -/
theorem claim_C7 (s : MgrState) (d : Nat)
    (hc : s.connected = true) (hd : s.timer_deadline = some d) :
    (∀ dt, d ≤ s.now + dt →
      (advance_time s dt).connected = false ∧
      (advance_time s dt).expected_disconnects = s.expected_disconnects + 1) ∧
    (∀ bytes r, decode bytes = some r →
      (handle_notification s bytes).timer_deadline
        = some (s.now + DISCONNECT_DELAY) ∧
      (handle_notification s bytes).connected = true ∧
      (handle_notification s bytes).now = s.now ∧
      ∀ dt, dt < DISCONNECT_DELAY →
        (advance_time (handle_notification s bytes) dt).connected = true) := by
  constructor
  · intro dt hdt
    simp [advance_time, hd, hdt, hc]
  · intro bytes r hr
    have hreset : notification_handler s.store bytes =
        ⟨apply_reading s.store r, true, true⟩ := by
      rw [notification_handler_eq, hr]
    refine ⟨?_, ?_, ?_, ?_⟩
    · simp [handle_notification, hreset, reset_disconnect_timer]
    · simp [handle_notification, hreset, reset_disconnect_timer, hc]
    · simp [handle_notification, hreset, reset_disconnect_timer]
    · intro dt hdt
      have hlt : ¬(s.now + DISCONNECT_DELAY ≤ s.now + dt) := by omega
      simp [handle_notification, hreset, reset_disconnect_timer, advance_time, hlt, hc]

/-- C7 witness: a connected manager at time 0 with a pending deadline 120;
letting 120 time units pass disconnects gracefully, while a temperature
reading ([0x07, 0x00, 0xEB], decoding to 23.5 Celsius) at time 0 rearms the
window and a tick of 119 does not disconnect. -/
theorem claim_C7_witness :
    ((advance_time ⟨0, true, initial_data, some 120, 0⟩ 120).connected = false ∧
     (advance_time ⟨0, true, initial_data, some 120, 0⟩ 120).expected_disconnects = 1) ∧
    ((handle_notification ⟨0, true, initial_data, some 120, 0⟩
        [0x07, 0x00, 0xEB]).timer_deadline = some 120 ∧
     (advance_time (handle_notification ⟨0, true, initial_data, some 120, 0⟩
        [0x07, 0x00, 0xEB]) 119).connected = true) :=
  ⟨(claim_C7 ⟨0, true, initial_data, some 120, 0⟩ 120 rfl rfl).1 120 (by omega),
   ⟨((claim_C7 ⟨0, true, initial_data, some 120, 0⟩ 120 rfl rfl).2 [0x07, 0x00, 0xEB]
      (.batteryTemperature (((235 : Nat) : ℚ) / 10)) rfl).1,
    ((claim_C7 ⟨0, true, initial_data, some 120, 0⟩ 120 rfl rfl).2 [0x07, 0x00, 0xEB]
      (.batteryTemperature (((235 : Nat) : ℚ) / 10)) rfl).2.2.2 119 (by decide)⟩⟩

/-- C8: for every interleaving of two concurrent `_ensure_connection`
callers starting disconnected (every schedule under which both callers have
returned), `establish_connection` was invoked exactly once: the
`asyncio.Lock` makes the check-then-connect sequence atomic, so whichever
caller enters second observes the connection made by the first and returns
without a connect attempt. -/
theorem claim_C8 (sched : List Bool)
    (h : (ensure_run sched).pc0 = .finished ∧ (ensure_run sched).pc1 = .finished) :
    (ensure_run sched).connect_attempts = 1 := by
  obtain ⟨h0, h1⟩ := h
  have hinv := ensure_run_inv sched
  obtain ⟨hcount, -, -, -, -, hfin⟩ := hinv
  have hconn : (ensure_run sched).connected = true := hfin (Or.inr h1)
  rw [hconn] at hcount
  simpa using hcount

/-- C8 witness: the schedule where caller 0 runs to completion and then
caller 1 runs: both finish and exactly one connect attempt was made. -/
theorem claim_C8_witness :
    ((ensure_run [false, false, false, false, true, true]).pc0 = .finished ∧
     (ensure_run [false, false, false, false, true, true]).pc1 = .finished) ∧
    (ensure_run [false, false, false, false, true, true]).connect_attempts = 1 :=
  ⟨by decide, claim_C8 [false, false, false, false, true, true] (by decide)⟩

/-- C9: whatever the initial refresh does — success or any raised exception
— `async_setup_entry` still registers the coordinator, forwards the sensor
platform and returns True; and a later successful connect still populates
the store, since the notification handler writes a decoded battery reading
into the (until then empty) battery slot. -/
theorem claim_C9 (first_refresh : Except String Unit) :
    (async_setup_entry first_refresh).coordinator_registered = true ∧
    (async_setup_entry first_refresh).platform_forwarded = true ∧
    (async_setup_entry first_refresh).setup_ok = true ∧
    (∀ v rest,
      (notification_handler initial_data (0x0A :: v :: rest)).data.battery = some v) := by
  refine ⟨rfl, rfl, rfl, ?_⟩
  intro v rest
  simp [notification_handler, parse_packet, length_guard_false,
    FRAME_DELIMITER, PACKET_ID_BATTERY_SOC, PACKET_ID_TEMPERATURE]

end Hyena
